import Mathlib

/-!
# Verification of the bullmq-dash state-synchronization core

This file gives a shallow embedding, in Lean 4, of the core of the
`bullmq-dash` terminal dashboard: the rate tracker (`src/data/metrics.ts`),
the cross-category job paginator (`src/data/jobs.ts`), the scheduler
paginator (`src/data/schedulers.ts`), the observable store
(`src/state.ts`), and the polling manager (`src/polling.ts`), together
with theorems settling the specification's claims about them.

Modelling conventions:
* JavaScript numbers are idealized as rationals (`ℚ`) where fractional
  arithmetic occurs (the rate tracker), and as `Nat`/`Int` for counts,
  indices and timestamps.  All inputs exercised by the theorems below
  are exactly representable, so the idealization does not change any
  compared value.
* The external BullMQ broker is modelled as an atomic snapshot of its
  per-state job lists (`BrokerQueue`); a count query returns the length
  of the corresponding list and a ranged fetch returns the corresponding
  inclusive slice, which is the contract `bullmq` documents for
  `getJobCounts` / `getActive` / … .
* Thrown JavaScript errors are modelled as `Except String` values whose
  payload is the error's `message`.
* Asynchronous code is embedded by sequential state passing; suspension
  points only matter through the `isPolling` re-entrancy flag, which is
  made an explicit input/output of `poll`.
-/

/-! ## Rate tracker (`src/data/metrics.ts`, `MetricsTracker`) -/

/-- The `jobCounts` aggregate of `GlobalMetrics` (src/data/metrics.ts). -/
structure JobCounts where
  wait : ℚ
  active : ℚ
  completed : ℚ
  failed : ℚ
  delayed : ℚ
  total : ℚ
deriving Repr, DecidableEq

/-- The `rates` aggregate of `GlobalMetrics` (src/data/metrics.ts). -/
structure Rates where
  enqueuedPerMin : ℚ
  enqueuedPerSec : ℚ
  dequeuedPerMin : ℚ
  dequeuedPerSec : ℚ
deriving Repr, DecidableEq

/-- The private mutable fields of class `MetricsTracker`. -/
structure TrackerState where
  lastPollTime : Option ℚ
  lastTotalJobs : ℚ
  lastProcessedJobs : ℚ
  smoothedEnqueuedPerMin : ℚ
  smoothedDequeuedPerMin : ℚ
deriving Repr, DecidableEq

/-- Field initializers of `MetricsTracker` (`lastPollTime = null`, zeros). -/
def TrackerState.fresh : TrackerState :=
  { lastPollTime := none,
    lastTotalJobs := 0,
    lastProcessedJobs := 0,
    smoothedEnqueuedPerMin := 0,
    smoothedDequeuedPerMin := 0 }

/-- `private readonly smoothingFactor = 0.3`. -/
def smoothingFactor : ℚ := 3 / 10

/-- `parseFloat(x.toFixed(digits))`: round half away from zero at `digits`
decimal places (the idealized-real reading of `Number.prototype.toFixed`;
every value this development applies it to is exact in both readings). -/
def jsToFixed (digits : Nat) (x : ℚ) : ℚ :=
  let p : ℚ := (10 : ℚ) ^ digits
  if 0 ≤ x then (⌊x * p + 1 / 2⌋ : ℚ) / p else -((⌊(-x) * p + 1 / 2⌋ : ℚ) / p)

/-- `MetricsTracker.update(jobCounts)` with `Date.now()` made the explicit
argument `now` (milliseconds); returns the updated private state together
with the returned `GlobalMetrics["rates"]`. -/
def TrackerState.update (st : TrackerState) (now : ℚ) (jobCounts : JobCounts) :
    TrackerState × Rates :=
  let currentTotalJobs :=
    jobCounts.wait + jobCounts.active + jobCounts.delayed +
      jobCounts.completed + jobCounts.failed
  let currentProcessedJobs := jobCounts.completed + jobCounts.failed
  match st.lastPollTime with
  | none =>
      -- First poll - no previous data to compare
      ({ st with
          lastPollTime := some now,
          lastTotalJobs := currentTotalJobs,
          lastProcessedJobs := currentProcessedJobs },
        { enqueuedPerMin := 0, enqueuedPerSec := 0,
          dequeuedPerMin := 0, dequeuedPerSec := 0 })
  | some lastT =>
      let elapsedMs := now - lastT
      let elapsedMin := elapsedMs / 60000
      if elapsedMin < 1 / 1000 then
        -- Avoid division by zero for very short intervals
        (st,
          { enqueuedPerMin := st.smoothedEnqueuedPerMin,
            enqueuedPerSec := st.smoothedEnqueuedPerMin / 60,
            dequeuedPerMin := st.smoothedDequeuedPerMin,
            dequeuedPerSec := st.smoothedDequeuedPerMin / 60 })
      else
        -- Calculate deltas (clamp to 0 if negative due to job deletions)
        let jobsEnqueued := max 0 (currentTotalJobs - st.lastTotalJobs)
        let jobsDequeued := max 0 (currentProcessedJobs - st.lastProcessedJobs)
        let instantEnqueuedPerMin := jobsEnqueued / elapsedMin
        let instantDequeuedPerMin := jobsDequeued / elapsedMin
        let sE := smoothingFactor * instantEnqueuedPerMin +
          (1 - smoothingFactor) * st.smoothedEnqueuedPerMin
        let sD := smoothingFactor * instantDequeuedPerMin +
          (1 - smoothingFactor) * st.smoothedDequeuedPerMin
        ({ lastPollTime := some now,
            lastTotalJobs := currentTotalJobs,
            lastProcessedJobs := currentProcessedJobs,
            smoothedEnqueuedPerMin := sE,
            smoothedDequeuedPerMin := sD },
          { enqueuedPerMin := jsToFixed 1 sE,
            enqueuedPerSec := jsToFixed 2 (sE / 60),
            dequeuedPerMin := jsToFixed 1 sD,
            dequeuedPerSec := jsToFixed 2 (sD / 60) })

/-- `MetricsTracker.reset()`: every private field back to its initializer. -/
def TrackerState.resetTracker (_st : TrackerState) : TrackerState :=
  { lastPollTime := none,
    lastTotalJobs := 0,
    lastProcessedJobs := 0,
    smoothedEnqueuedPerMin := 0,
    smoothedDequeuedPerMin := 0 }

/-- Run `update` over a whole observation sequence (pairs of `Date.now()`
value and job counts), collecting every emitted rate record. -/
def runUpdates (st : TrackerState) : List (ℚ × JobCounts) → TrackerState × List Rates
  | [] => (st, [])
  | (now, c) :: rest =>
      ((runUpdates (st.update now c).1 rest).1,
        (st.update now c).2 :: (runUpdates (st.update now c).1 rest).2)

/-- All four rate components are non-negative. -/
def Rates.nonneg (r : Rates) : Prop :=
  0 ≤ r.enqueuedPerMin ∧ 0 ≤ r.enqueuedPerSec ∧
    0 ≤ r.dequeuedPerMin ∧ 0 ≤ r.dequeuedPerSec

instance (r : Rates) : Decidable r.nonneg := by
  unfold Rates.nonneg; infer_instance

/-! ## Broker boundary (external BullMQ queue, modelled as a snapshot) -/

/-- A job record as the broker returns it.  `id` and `timestamp` keep the
optionality the client code guards with `job.id || "unknown"` and
`job.timestamp || 0`; `state` is the value `job.getState()` resolves to;
`repeatJobKey` is the back-reference to the originating scheduler. -/
structure BrokerJob where
  id : Option String
  name : String
  timestamp : Option Nat
  state : String
  repeatJobKey : Option String
deriving Repr, DecidableEq

/-- A scheduler record as `queue.getJobSchedulers` returns it. -/
structure SchedulerRecord where
  key : String
  name : String
  pattern : Option String
  every : Option Nat
  next : Option Nat
  iterationCount : Option Nat
  tz : Option String
deriving Repr, DecidableEq

/-- Snapshot of one broker-side queue: the per-state job lists, the
scheduler list and the paused flag.  Count queries (`getJobCounts`,
`getJobSchedulersCount`) return the lengths of these lists and ranged
fetches (`getActive(start, end)`, …) return the inclusive slice
`[start, end]` of them. -/
structure BrokerQueue where
  active : List BrokerJob
  waiting : List BrokerJob
  completed : List BrokerJob
  failed : List BrokerJob
  delayed : List BrokerJob
  prioritized : List BrokerJob
  schedulers : List SchedulerRecord
  isPaused : Bool
deriving Repr, DecidableEq

/-- `Array.prototype.slice(s, e)`: the elements from index `s` (inclusive)
to `e` (exclusive), clamped to the array. -/
def jsSlice (l : List α) (s e : Nat) : List α :=
  (l.drop s).take (e - s)

/-- A ranged broker fetch with inclusive bounds: `getActive(s, e)` etc. -/
def fetchRange (l : List α) (s e : Nat) : List α :=
  jsSlice l s (e + 1)

/-- `Math.ceil(total / pageSize)` for the positive page sizes the client
uses (`Nat.ceilDiv`). -/
def jsCeilDiv (total pageSize : Nat) : Nat :=
  (total + pageSize - 1) / pageSize

/-! ## Cross-category paginator (`src/data/jobs.ts`) -/

/-- `JobSummary` (src/data/jobs.ts). -/
structure JobSummary where
  id : String
  name : String
  state : String
  timestamp : Nat
deriving Repr, DecidableEq

/-- The per-job summary conversion at the end of `getJobs`:
`{ id: job.id || "unknown", name, state: await job.getState(), timestamp:
job.timestamp || 0 }`. -/
def toSummary (j : BrokerJob) : JobSummary :=
  { id := j.id.getD "unknown"
    name := j.name
    state := j.state
    timestamp := j.timestamp.getD 0 }

/-- `JobsResult` (src/data/jobs.ts). -/
structure JobsResult where
  jobs : List JobSummary
  total : Nat
  page : Nat
  pageSize : Nat
  totalPages : Nat
deriving Repr, DecidableEq

/-- The status vocabulary of the job/scheduler pane.  `JobStatus` in
src/data/jobs.ts is the union
`"latest" | "wait" | "active" | "completed" | "failed" | "delayed" |
"scheduled"`; the state layer's `JobListView` additionally contains the
`"schedulers"` value that `STATUS_OPTIONS` in src/ui/status-filter.ts
assigns to key `"7"` (its `type` alias lives in src/data/jobs.ts alongside
`JobStatus`).  One inductive covers both unions; `getJobs` treats every
constructor outside its `switch` (`scheduled`, `schedulers`) through its
`default` arm, exactly as the TypeScript `switch` does. -/
inductive JobListView where
  | latest
  | wait
  | active
  | completed
  | failed
  | delayed
  | scheduled
  | schedulers
deriving Repr, DecidableEq

/-- The sort key `(job.timestamp || 0)` used by the comparator in
`getJobs` ("latest" branch). -/
def tsKey (j : BrokerJob) : Nat :=
  j.timestamp.getD 0

/-- Stable insertion step for descending-timestamp order: the inserted
(earlier-positioned) element passes a later element only when its key is
strictly larger — equal keys keep their original relative order, as
ECMAScript's `Array.prototype.sort` guarantees. -/
def insertByTsDesc (j : BrokerJob) : List BrokerJob → List BrokerJob
  | [] => [j]
  | k :: ks => if tsKey k ≤ tsKey j then j :: k :: ks else k :: insertByTsDesc j ks

/-- `allJobs.sort((a, b) => (b.timestamp || 0) - (a.timestamp || 0))`:
stable sort, descending by `timestamp || 0`. -/
def sortByTsDesc (l : List BrokerJob) : List BrokerJob :=
  l.foldr insertByTsDesc []

/-- `getJobs(queueName, status, page, pageSize)` (src/data/jobs.ts) over a
broker snapshot.  The default `pageSize` at the call sites is 25. -/
def getJobs (q : BrokerQueue) (status : JobListView) (page : Nat)
    (pageSize : Nat := 25) : JobsResult :=
  let start := (page - 1) * pageSize
  let lastIdx := start + pageSize - 1
  let (jobs, total) : List BrokerJob × Nat :=
    match status with
    | .latest =>
        let total := q.waiting.length + q.active.length + q.completed.length +
          q.failed.length + q.delayed.length + q.prioritized.length
        let allJobs :=
          fetchRange q.active 0 lastIdx ++ fetchRange q.waiting 0 lastIdx ++
          fetchRange q.completed 0 lastIdx ++ fetchRange q.failed 0 lastIdx ++
          fetchRange q.delayed 0 lastIdx ++ fetchRange q.prioritized 0 lastIdx
        (jsSlice (sortByTsDesc allJobs) start (lastIdx + 1), total)
    | .wait =>
        let total := q.waiting.length + q.prioritized.length
        let combinedWait := fetchRange q.waiting 0 lastIdx ++
          fetchRange q.prioritized 0 lastIdx
        (jsSlice combinedWait start (lastIdx + 1), total)
    | .active => (fetchRange q.active start lastIdx, q.active.length)
    | .completed => (fetchRange q.completed start lastIdx, q.completed.length)
    | .failed => (fetchRange q.failed start lastIdx, q.failed.length)
    | .delayed => (fetchRange q.delayed start lastIdx, q.delayed.length)
    | _ => ([], 0)
  { jobs := jobs.map toSummary
    total := total
    page := page
    pageSize := pageSize
    totalPages := jsCeilDiv total pageSize }

/-! ## Scheduler paginator (`src/data/schedulers.ts`) -/

/-- `JobSchedulerSummary` (src/data/schedulers.ts). -/
structure JobSchedulerSummary where
  key : String
  name : String
  pattern : Option String
  every : Option Nat
  next : Option Nat
  iterationCount : Option Nat
  tz : Option String
deriving Repr, DecidableEq

/-- The summary conversion in `getJobSchedulers` (`?? undefined` is the
identity on our option fields). -/
def toSchedulerSummary (s : SchedulerRecord) : JobSchedulerSummary :=
  { key := s.key, name := s.name, pattern := s.pattern, every := s.every,
    next := s.next, iterationCount := s.iterationCount, tz := s.tz }

/-- `SchedulersResult` (src/data/schedulers.ts). -/
structure SchedulersResult where
  schedulers : List JobSchedulerSummary
  total : Nat
  page : Nat
  pageSize : Nat
  totalPages : Nat
deriving Repr, DecidableEq

/-- `getJobSchedulers(queueName, page, pageSize)` (src/data/schedulers.ts)
over a broker snapshot. -/
def getJobSchedulers (q : BrokerQueue) (page : Nat)
    (pageSize : Nat := 25) : SchedulersResult :=
  let start := (page - 1) * pageSize
  let lastIdx := start + pageSize - 1
  let schedulers := fetchRange q.schedulers start lastIdx
  let total := q.schedulers.length
  { schedulers := schedulers.map toSchedulerSummary
    total := total
    page := page
    pageSize := pageSize
    totalPages := jsCeilDiv total pageSize }

/-! ## Status filter (`src/ui/status-filter.ts`) -/

/-- One entry of `STATUS_OPTIONS`. -/
structure StatusOption where
  key : String
  status : JobListView
  label : String
deriving Repr, DecidableEq

/-- `STATUS_OPTIONS` (src/ui/status-filter.ts). -/
def STATUS_OPTIONS : List StatusOption :=
  [ { key := "1", status := .latest, label := "latest" },
    { key := "2", status := .wait, label := "wait" },
    { key := "3", status := .active, label := "active" },
    { key := "4", status := .completed, label := "completed" },
    { key := "5", status := .failed, label := "failed" },
    { key := "6", status := .delayed, label := "delayed" },
    { key := "7", status := .schedulers, label := "schedulers" } ]

/-- `getStatusFromKey(key)` (src/ui/status-filter.ts). -/
def getStatusFromKey (key : String) : Option JobListView :=
  (STATUS_OPTIONS.find? (fun o => o.key = key)).map (fun o => o.status)

/-! ## Queue statistics (`src/data/queues.ts`) -/

/-- The `counts` aggregate of `QueueStats` (src/data/queues.ts). -/
structure QueueCounts where
  wait : Nat
  active : Nat
  completed : Nat
  failed : Nat
  delayed : Nat
  schedulers : Nat
deriving Repr, DecidableEq

/-- `QueueStats` (src/data/queues.ts). -/
structure QueueStats where
  name : String
  counts : QueueCounts
  isPaused : Bool
  total : Nat
deriving Repr, DecidableEq

/-- `GlobalMetrics` (src/data/metrics.ts). -/
structure GlobalMetrics where
  queueCount : Nat
  jobCounts : JobCounts
  rates : Rates
deriving Repr, DecidableEq

/-! ## Application state (`src/state.ts`) -/

/-- An arbitrary JavaScript value, for the `unknown`-typed payload fields
(`data`, `opts`, `returnvalue`, `progress`, scheduler templates). -/
inductive JsonValue where
  | null
  | jsBool (b : Bool)
  | jsNum (q : ℚ)
  | jsStr (s : String)
  | jsArr (elems : List JsonValue)
  | jsObj (fields : List (String × JsonValue))

/-- `JobDetail` (src/data/jobs.ts). -/
structure JobDetail where
  id : String
  name : String
  state : String
  timestamp : Nat
  data : JsonValue
  opts : JsonValue
  attemptsMade : Nat
  failedReason : Option String
  stacktrace : Option (List String)
  returnvalue : Option JsonValue
  processedOn : Option Nat
  finishedOn : Option Nat
  progress : Option JsonValue
  repeatJobKey : Option String
  delay : Option Nat

/-- `NextDelayedJob` (src/data/schedulers.ts). -/
structure NextDelayedJob where
  id : String
  state : String
  timestamp : Nat
  delay : Option Nat
  data : JsonValue
  opts : JsonValue

/-- `RecentJobInfo` (src/data/schedulers.ts). -/
structure RecentJobInfo where
  id : String
  state : String
  timestamp : Nat
  processedOn : Option Nat
  finishedOn : Option Nat
  failedReason : Option String

/-- The `template` aggregate of `JobSchedulerDetail`. -/
structure SchedulerTemplate where
  data : Option JsonValue
  opts : Option JsonValue

/-- `JobSchedulerDetail` (src/data/schedulers.ts). -/
structure JobSchedulerDetail where
  key : String
  name : String
  pattern : Option String
  every : Option Nat
  next : Option Nat
  iterationCount : Option Nat
  tz : Option String
  id : Option (Option String)
  limit : Option Nat
  startDate : Option Nat
  endDate : Option Nat
  template : Option SchedulerTemplate
  nextJob : Option NextDelayedJob
  recentJobs : Option (List RecentJobInfo)

/-- `FocusedPane` (src/state.ts). -/
inductive FocusedPane where
  | queues
  | jobs
deriving Repr, DecidableEq

/-- `AppState` (src/state.ts). -/
structure AppState where
  connected : Bool
  error : Option String
  globalMetrics : Option GlobalMetrics
  queues : List QueueStats
  selectedQueueIndex : Nat
  jobs : List JobSummary
  jobsTotal : Nat
  jobsPage : Nat
  jobsTotalPages : Nat
  jobsStatus : JobListView
  selectedJobIndex : Nat
  jobDetail : Option JobDetail
  showJobDetail : Bool
  schedulers : List JobSchedulerSummary
  schedulersTotal : Nat
  schedulersPage : Nat
  schedulersTotalPages : Nat
  selectedSchedulerIndex : Nat
  schedulerDetail : Option JobSchedulerDetail
  showSchedulerDetail : Bool
  focusedPane : FocusedPane
  showConfirmDelete : Bool
  showPageJump : Bool
  pageJumpInput : String
  isLoading : Bool

/-- The constructor state of `StateManager` (src/state.ts). -/
def initialAppState : AppState :=
  { connected := false
    error := none
    globalMetrics := none
    queues := []
    selectedQueueIndex := 0
    jobs := []
    jobsTotal := 0
    jobsPage := 1
    jobsTotalPages := 0
    jobsStatus := .latest
    selectedJobIndex := 0
    jobDetail := none
    showJobDetail := false
    schedulers := []
    schedulersTotal := 0
    schedulersPage := 1
    schedulersTotalPages := 0
    selectedSchedulerIndex := 0
    schedulerDetail := none
    showSchedulerDetail := false
    focusedPane := .queues
    showConfirmDelete := false
    showPageJump := false
    pageJumpInput := ""
    isLoading := false }

/-- `Partial<AppState>`: every field optional, absent by default. -/
structure PartialAppState where
  connected : Option Bool := none
  error : Option (Option String) := none
  globalMetrics : Option (Option GlobalMetrics) := none
  queues : Option (List QueueStats) := none
  selectedQueueIndex : Option Nat := none
  jobs : Option (List JobSummary) := none
  jobsTotal : Option Nat := none
  jobsPage : Option Nat := none
  jobsTotalPages : Option Nat := none
  jobsStatus : Option JobListView := none
  selectedJobIndex : Option Nat := none
  jobDetail : Option (Option JobDetail) := none
  showJobDetail : Option Bool := none
  schedulers : Option (List JobSchedulerSummary) := none
  schedulersTotal : Option Nat := none
  schedulersPage : Option Nat := none
  schedulersTotalPages : Option Nat := none
  selectedSchedulerIndex : Option Nat := none
  schedulerDetail : Option (Option JobSchedulerDetail) := none
  showSchedulerDetail : Option Bool := none
  focusedPane : Option FocusedPane := none
  showConfirmDelete : Option Bool := none
  showPageJump : Option Bool := none
  pageJumpInput : Option String := none
  isLoading : Option Bool := none

/-- The object-spread merge `{ ...this.state, ...partial }` of
`StateManager.setState`: fields present in the partial win, the rest are
kept. -/
def mergeState (s : AppState) (p : PartialAppState) : AppState :=
  { connected := p.connected.getD s.connected
    error := p.error.getD s.error
    globalMetrics := p.globalMetrics.getD s.globalMetrics
    queues := p.queues.getD s.queues
    selectedQueueIndex := p.selectedQueueIndex.getD s.selectedQueueIndex
    jobs := p.jobs.getD s.jobs
    jobsTotal := p.jobsTotal.getD s.jobsTotal
    jobsPage := p.jobsPage.getD s.jobsPage
    jobsTotalPages := p.jobsTotalPages.getD s.jobsTotalPages
    jobsStatus := p.jobsStatus.getD s.jobsStatus
    selectedJobIndex := p.selectedJobIndex.getD s.selectedJobIndex
    jobDetail := p.jobDetail.getD s.jobDetail
    showJobDetail := p.showJobDetail.getD s.showJobDetail
    schedulers := p.schedulers.getD s.schedulers
    schedulersTotal := p.schedulersTotal.getD s.schedulersTotal
    schedulersPage := p.schedulersPage.getD s.schedulersPage
    schedulersTotalPages := p.schedulersTotalPages.getD s.schedulersTotalPages
    selectedSchedulerIndex := p.selectedSchedulerIndex.getD s.selectedSchedulerIndex
    schedulerDetail := p.schedulerDetail.getD s.schedulerDetail
    showSchedulerDetail := p.showSchedulerDetail.getD s.showSchedulerDetail
    focusedPane := p.focusedPane.getD s.focusedPane
    showConfirmDelete := p.showConfirmDelete.getD s.showConfirmDelete
    showPageJump := p.showPageJump.getD s.showPageJump
    pageJumpInput := p.pageJumpInput.getD s.pageJumpInput
    isLoading := p.isLoading.getD s.isLoading }

/-! ## Observable store (`src/state.ts`, `StateManager`) -/

/-- A subscribed listener: an identity plus the callback's behaviour on a
given snapshot (`.ok ()` for a normal return, `.error m` for a thrown
exception with message `m`). -/
structure Listener where
  id : Nat
  call : AppState → Except String Unit

/-- The whole `StateManager`: the current snapshot plus the insertion-
ordered listener set (`Set<StateListener>` iterates in insertion order). -/
structure StoreState where
  snapshot : AppState
  listeners : List Listener

/-- One observed listener invocation: which listener ran, the snapshot it
was handed, and whether it returned or threw. -/
structure NotifyEvent where
  listenerId : Nat
  observed : AppState
  outcome : Except String Unit

/-- `notifyListeners` (src/state.ts): iterate the listeners in order; each
call is wrapped in `try`/`catch`, so a thrown exception is logged and the
iteration continues with the next listener instead of aborting. -/
def notifyListeners (snap : AppState) : List Listener → List NotifyEvent
  | [] => []
  | l :: rest =>
      let outcome := l.call snap
      -- catch: the error is only logged; iteration continues either way
      { listenerId := l.id, observed := snap, outcome := outcome } ::
        notifyListeners snap rest

/-- `StateManager.setState(partial)`: merge, then notify every listener
with the post-merge snapshot.  Returns the new manager state and the
invocation trace; it never rethrows a listener exception. -/
def setState (st : StoreState) (p : PartialAppState) : StoreState × List NotifyEvent :=
  let newSnap := mergeState st.snapshot p
  ({ snapshot := newSnap, listeners := st.listeners },
    notifyListeners newSnap st.listeners)

/-! ## State-mutating intents (`src/state.ts`)

Each intent performs one `this.setState({...})`, possibly behind a bounds
guard.  At the snapshot level `setState` is `mergeState`; notification is
unchanged from `setState` above and does not alter the snapshot.  Guards
that subtract 1 from a length are evaluated over `ℤ`, as JavaScript
evaluates `queues.length - 1`. -/

/-- `StateManager.selectNextQueue`. -/
def selectNextQueue (s : AppState) : AppState :=
  if (s.selectedQueueIndex : ℤ) < (s.queues.length : ℤ) - 1 then
    mergeState s { selectedQueueIndex := some (s.selectedQueueIndex + 1),
                   selectedJobIndex := some 0, jobsPage := some 1 }
  else s

/-- `StateManager.selectPrevQueue`. -/
def selectPrevQueue (s : AppState) : AppState :=
  if 0 < s.selectedQueueIndex then
    mergeState s { selectedQueueIndex := some (s.selectedQueueIndex - 1),
                   selectedJobIndex := some 0, jobsPage := some 1 }
  else s

/-- `StateManager.selectNextJob`. -/
def selectNextJob (s : AppState) : AppState :=
  if (s.selectedJobIndex : ℤ) < (s.jobs.length : ℤ) - 1 then
    mergeState s { selectedJobIndex := some (s.selectedJobIndex + 1) }
  else s

/-- `StateManager.selectPrevJob`. -/
def selectPrevJob (s : AppState) : AppState :=
  if 0 < s.selectedJobIndex then
    mergeState s { selectedJobIndex := some (s.selectedJobIndex - 1) }
  else s

/-- `StateManager.selectNextScheduler`. -/
def selectNextScheduler (s : AppState) : AppState :=
  if (s.selectedSchedulerIndex : ℤ) < (s.schedulers.length : ℤ) - 1 then
    mergeState s { selectedSchedulerIndex := some (s.selectedSchedulerIndex + 1) }
  else s

/-- `StateManager.selectPrevScheduler`. -/
def selectPrevScheduler (s : AppState) : AppState :=
  if 0 < s.selectedSchedulerIndex then
    mergeState s { selectedSchedulerIndex := some (s.selectedSchedulerIndex - 1) }
  else s

/-- `StateManager.nextPage`. -/
def nextPage (s : AppState) : AppState :=
  if s.jobsPage < s.jobsTotalPages then
    mergeState s { jobsPage := some (s.jobsPage + 1), selectedJobIndex := some 0 }
  else s

/-- `StateManager.prevPage`. -/
def prevPage (s : AppState) : AppState :=
  if 1 < s.jobsPage then
    mergeState s { jobsPage := some (s.jobsPage - 1), selectedJobIndex := some 0 }
  else s

/-- `StateManager.goToPage(page)`. -/
def goToPage (page : Nat) (s : AppState) : AppState :=
  let targetPage := max 1 (min page s.jobsTotalPages)
  mergeState s { jobsPage := some targetPage, selectedJobIndex := some 0 }

/-- `StateManager.nextSchedulerPage`. -/
def nextSchedulerPage (s : AppState) : AppState :=
  if s.schedulersPage < s.schedulersTotalPages then
    mergeState s { schedulersPage := some (s.schedulersPage + 1),
                   selectedSchedulerIndex := some 0 }
  else s

/-- `StateManager.prevSchedulerPage`. -/
def prevSchedulerPage (s : AppState) : AppState :=
  if 1 < s.schedulersPage then
    mergeState s { schedulersPage := some (s.schedulersPage - 1),
                   selectedSchedulerIndex := some 0 }
  else s

/-- `StateManager.goToSchedulerPage(page)`. -/
def goToSchedulerPage (page : Nat) (s : AppState) : AppState :=
  let targetPage := max 1 (min page s.schedulersTotalPages)
  mergeState s { schedulersPage := some targetPage,
                 selectedSchedulerIndex := some 0 }

/-- `StateManager.setJobsStatus(status)`. -/
def setJobsStatus (status : JobListView) (s : AppState) : AppState :=
  mergeState s { jobsStatus := some status, jobsPage := some 1,
                 selectedJobIndex := some 0 }

/-- The navigation and pagination intents, as one vocabulary. -/
inductive Intent where
  | selNextQueue
  | selPrevQueue
  | selNextJob
  | selPrevJob
  | selNextScheduler
  | selPrevScheduler
  | pageNext
  | pagePrev
  | pageGoTo (page : Nat)
  | schedPageNext
  | schedPagePrev
  | schedPageGoTo (page : Nat)
  | statusSet (status : JobListView)
deriving Repr, DecidableEq

/-- Dispatch an intent to its `StateManager` method. -/
def applyIntent : Intent → AppState → AppState
  | .selNextQueue => selectNextQueue
  | .selPrevQueue => selectPrevQueue
  | .selNextJob => selectNextJob
  | .selPrevJob => selectPrevJob
  | .selNextScheduler => selectNextScheduler
  | .selPrevScheduler => selectPrevScheduler
  | .pageNext => nextPage
  | .pagePrev => prevPage
  | .pageGoTo p => goToPage p
  | .schedPageNext => nextSchedulerPage
  | .schedPagePrev => prevSchedulerPage
  | .schedPageGoTo p => goToSchedulerPage p
  | .statusSet v => setJobsStatus v

/-! ## Polling manager (`src/polling.ts`) -/

/-- The remote collaborator as `poll` sees it: the two global fetches
(each may reject), the per-queue snapshot behind `getJobs` /
`getJobSchedulers`, and injectable rejections for those two calls. -/
structure Broker where
  queueStatsR : Except String (List QueueStats)
  globalMetricsR : Except String GlobalMetrics
  queueData : String → BrokerQueue
  jobsFail : Option String
  schedulersFail : Option String

/-- Observable actions of one `poll()` run: remote fetches issued, store
writes performed, and `resetMetricsTracker()` calls. -/
inductive PollEffect where
  | fetchQueueStats
  | fetchGlobalMetrics
  | fetchJobs (queueName : String) (status : JobListView) (page : Nat)
  | fetchSchedulers (queueName : String) (page : Nat)
  | storeWrite
  | resetTracker
deriving Repr, DecidableEq

/-- Result of one `poll()` call: the re-entrancy flag on exit, the store
snapshot on exit, and the effect trace. -/
structure PollOutcome where
  isPolling : Bool
  state : AppState
  effects : List PollEffect

/-- The `catch` arm of `poll`: reset the tracker if the store was
connected when the poll started, then write the error state. -/
def pollCatch (wasConnected : Bool) (sAt : AppState) (msg : String) :
    AppState × List PollEffect :=
  let resetEff : List PollEffect :=
    if wasConnected then [.resetTracker] else []
  (mergeState sAt
      { connected := some false, error := some (some msg),
        isLoading := some false },
    resetEff ++ [.storeWrite])

/-- `PollingManager.poll()` (src/polling.ts).  The `isPolling` flag is the
explicit re-entrancy guard; a call that finds it set returns before any
fetch or store write.  `Promise.all` starts both global fetches, so both
fetch effects are recorded even when one of them rejects. -/
def poll (b : Broker) (isPolling : Bool) (s : AppState) : PollOutcome :=
  if isPolling then { isPolling := isPolling, state := s, effects := [] }
  else
    let wasConnected := s.connected
    let s1 := mergeState s { isLoading := some true }
    let eff1 : List PollEffect := [.storeWrite, .fetchQueueStats, .fetchGlobalMetrics]
    match b.queueStatsR, b.globalMetricsR with
    | .error e, _ =>
        let (sF, effC) := pollCatch wasConnected s1 e
        { isPolling := false, state := sF, effects := eff1 ++ effC }
    | .ok _, .error e =>
        let (sF, effC) := pollCatch wasConnected s1 e
        { isPolling := false, state := sF, effects := eff1 ++ effC }
    | .ok queues, .ok globalMetrics =>
        let currentState := s1
        let clampedIndex :=
          if 0 < queues.length then
            min currentState.selectedQueueIndex (queues.length - 1)
          else 0
        let s2 := mergeState s1
          { queues := some queues, globalMetrics := some (some globalMetrics),
            connected := some true, error := some none,
            selectedQueueIndex := some clampedIndex }
        let eff2 := eff1 ++ [.storeWrite]
        let updatedState := s2
        match queues[clampedIndex]? with
        | some selectedQueue =>
            if updatedState.jobsStatus = .scheduled then
              let effF := eff2 ++
                [.fetchSchedulers selectedQueue.name updatedState.schedulersPage]
              match b.schedulersFail with
              | some e =>
                  let (sF, effC) := pollCatch wasConnected s2 e
                  { isPolling := false, state := sF, effects := effF ++ effC }
              | none =>
                  let r := getJobSchedulers (b.queueData selectedQueue.name)
                    updatedState.schedulersPage
                  let s3 := mergeState s2
                    { schedulers := some r.schedulers,
                      schedulersTotal := some r.total,
                      schedulersTotalPages := some r.totalPages,
                      jobs := some [], jobsTotal := some 0,
                      jobsTotalPages := some 0 }
                  let s4 := mergeState s3 { isLoading := some false }
                  { isPolling := false, state := s4,
                    effects := effF ++ [.storeWrite, .storeWrite] }
            else
              let effF := eff2 ++
                [.fetchJobs selectedQueue.name updatedState.jobsStatus
                  updatedState.jobsPage]
              match b.jobsFail with
              | some e =>
                  let (sF, effC) := pollCatch wasConnected s2 e
                  { isPolling := false, state := sF, effects := effF ++ effC }
              | none =>
                  let r := getJobs (b.queueData selectedQueue.name)
                    updatedState.jobsStatus updatedState.jobsPage
                  let s3 := mergeState s2
                    { jobs := some r.jobs, jobsTotal := some r.total,
                      jobsTotalPages := some r.totalPages,
                      schedulers := some [], schedulersTotal := some 0,
                      schedulersTotalPages := some 0 }
                  let s4 := mergeState s3 { isLoading := some false }
                  { isPolling := false, state := s4,
                    effects := effF ++ [.storeWrite, .storeWrite] }
        | none =>
            let s3 := mergeState s2
              { jobs := some [], jobsTotal := some 0, jobsTotalPages := some 0,
                schedulers := some [], schedulersTotal := some 0,
                schedulersTotalPages := some 0 }
            let s4 := mergeState s3 { isLoading := some false }
            { isPolling := false, state := s4,
              effects := eff2 ++ [.storeWrite, .storeWrite] }

/-- Which error message, if any, the `try` body of `poll` would throw for
the given broker behaviour and entry snapshot (mirrors the order in which
`poll` awaits its remote calls). -/
def pollFailureMsg (b : Broker) (s : AppState) : Option String :=
  match b.queueStatsR with
  | .error e => some e
  | .ok queues =>
      match b.globalMetricsR with
      | .error e => some e
      | .ok _ =>
          let clampedIndex :=
            if 0 < queues.length then
              min s.selectedQueueIndex (queues.length - 1)
            else 0
          match queues[clampedIndex]? with
          | none => none
          | some _ =>
              if s.jobsStatus = .scheduled then b.schedulersFail else b.jobsFail

/-- The all-zero rate record returned by the first `update` call. -/
def zeroRates : Rates :=
  { enqueuedPerMin := 0, enqueuedPerSec := 0, dequeuedPerMin := 0,
    dequeuedPerSec := 0 }

/-- A concrete two-observation run, 120 s apart, whose second snapshot has
*smaller* counts than the first (simulated broker-side deletion). -/
def shrinkingObs : List (ℚ × JobCounts) :=
  [ ((0 : ℚ),
      { wait := 40, active := 5, completed := 100, failed := 10, delayed := 3,
        total := 158 }),
    ((120000 : ℚ),
      { wait := 2, active := 1, completed := 50, failed := 4, delayed := 0,
        total := 57 }) ]

/-- The merged "latest" page as the specification words it: fetch the
first `page * pageSize` items of every state-category list (active,
waiting, completed, failed, delayed, prioritized, each from offset 0),
concatenate, sort the concatenation descending by creation timestamp, and
take the slice `[(page-1)*pageSize, page*pageSize)`; the total is the sum
of all category counts including prioritized. -/
def latestPageSpec (q : BrokerQueue) (page pageSize : Nat) :
    List JobSummary × Nat :=
  let window := page * pageSize
  let fetched := q.active.take window ++ q.waiting.take window ++
    q.completed.take window ++ q.failed.take window ++ q.delayed.take window ++
    q.prioritized.take window
  let sorted := sortByTsDesc fetched
  (((sorted.drop ((page - 1) * pageSize)).take
      (page * pageSize - (page - 1) * pageSize)).map toSummary,
    q.active.length + q.waiting.length + q.completed.length + q.failed.length +
      q.delayed.length + q.prioritized.length)

/-- The specification's concrete "latest" example: category lists holding
creation timestamps `[100]`, `[90, 80]`, `[]`, `[70]`, `[]` (and no
prioritized jobs). -/
def latestExampleQueue : BrokerQueue :=
  { active := [⟨some "a", "job-a", some 100, "active", none⟩],
    waiting := [⟨some "b", "job-b", some 90, "waiting", none⟩,
      ⟨some "c", "job-c", some 80, "waiting", none⟩],
    completed := [],
    failed := [⟨some "d", "job-d", some 70, "failed", none⟩],
    delayed := [],
    prioritized := [],
    schedulers := [],
    isPaused := false }

/-- The "wait" page as the specification words it (same fetch-prefix +
sort + slice method as the "latest" view): fetch the prefixes of the
plain-waiting and prioritized lists, merge them, sort the merged list by
creation timestamp descending, slice the page window; the total is the
waiting count plus the prioritized count. -/
def waitPageSpecSorted (q : BrokerQueue) (page pageSize : Nat) :
    List JobSummary × Nat :=
  let window := page * pageSize
  let merged := sortByTsDesc (q.waiting.take window ++ q.prioritized.take window)
  (((merged.drop ((page - 1) * pageSize)).take
      (page * pageSize - (page - 1) * pageSize)).map toSummary,
    q.waiting.length + q.prioritized.length)

/-- A queue whose plain-waiting job (timestamp 10) is older than its
prioritized job (timestamp 100). -/
def waitExampleQueue : BrokerQueue :=
  { active := [],
    waiting := [⟨some "w", "job-w", some 10, "waiting", none⟩],
    completed := [],
    failed := [],
    delayed := [],
    prioritized := [⟨some "p", "job-p", some 100, "prioritized", none⟩],
    schedulers := [],
    isPaused := false }

/-- The "wait" page as the code actually builds it: the fetched waiting
prefix concatenated with the fetched prioritized prefix — in that order,
with no re-sort — then the page-window slice; the total is the waiting
count plus the prioritized count. -/
def waitPageSpecUnsorted (q : BrokerQueue) (page pageSize : Nat) :
    List JobSummary × Nat :=
  let window := page * pageSize
  let merged := q.waiting.take window ++ q.prioritized.take window
  (((merged.drop ((page - 1) * pageSize)).take
      (page * pageSize - (page - 1) * pageSize)).map toSummary,
    q.waiting.length + q.prioritized.length)

/-- An empty broker-side queue snapshot. -/
def emptyBrokerQueue : BrokerQueue :=
  { active := [], waiting := [], completed := [], failed := [], delayed := [],
    prioritized := [], schedulers := [], isPaused := false }

/-- A broker on which every remote call succeeds (with empty data). -/
def quietBroker : Broker :=
  { queueStatsR := .ok [],
    globalMetricsR := .ok
      { queueCount := 0, jobCounts := ⟨0, 0, 0, 0, 0, 0⟩, rates := zeroRates },
    queueData := fun _ => emptyBrokerQueue,
    jobsFail := none,
    schedulersFail := none }

/-- A broker whose queue-summary fetch rejects. -/
def refusingBroker : Broker :=
  { queueStatsR := .error "ECONNREFUSED",
    globalMetricsR := quietBroker.globalMetricsR,
    queueData := fun _ => emptyBrokerQueue,
    jobsFail := none,
    schedulersFail := none }

/-- A snapshot whose store is currently connected. -/
def connectedState : AppState :=
  { initialAppState with connected := true }

/-! ## C1: full poll vs. the schedulers filter -/

/-- Aggregate metrics of an idle broker. -/
def quietMetrics : GlobalMetrics :=
  { queueCount := 0, jobCounts := ⟨0, 0, 0, 0, 0, 0⟩, rates := zeroRates }

/-- A queue-summary record with the given name and one scheduler. -/
def schedQueueStats : QueueStats :=
  { name := "q1", counts := ⟨0, 0, 0, 0, 0, 1⟩, isPaused := false, total := 0 }

/-- A broker-side queue holding one scheduler and no jobs. -/
def schedQueue : BrokerQueue :=
  { emptyBrokerQueue with
      schedulers := [⟨"sched-1", "daily", some "0 0 * * *", none, some 1000,
        some 1, none⟩] }

/-- A fully healthy broker exposing `schedQueue` under queue `q1`. -/
def schedBroker : Broker :=
  { queueStatsR := .ok [schedQueueStats],
    globalMetricsR := .ok quietMetrics,
    queueData := fun _ => schedQueue,
    jobsFail := none,
    schedulersFail := none }

/-- The store state after the operator presses key `7`: the schedulers
view is the active filter. -/
def schedulersFilterState : AppState :=
  { initialAppState with connected := true, jobsStatus := .schedulers }

/-! ## C10: the selected-index invariant -/

/-- The specification's index invariant for one list: the index is within
`[0, length)`, or `0` when the list is empty. -/
def idxInv (i n : Nat) : Prop := i < n ∨ (n = 0 ∧ i = 0)

instance (i n : Nat) : Decidable (idxInv i n) := by
  unfold idxInv; infer_instance

/-- The invariant over all three selected-index fields of the snapshot. -/
def stateInv (s : AppState) : Prop :=
  idxInv s.selectedQueueIndex s.queues.length ∧
    idxInv s.selectedJobIndex s.jobs.length ∧
    idxInv s.selectedSchedulerIndex s.schedulers.length

instance (s : AppState) : Decidable (stateInv s) := by
  unfold stateInv; infer_instance

/-- A store state satisfying the invariant, with two jobs on the current
page and the second selected. -/
def twoJobsState : AppState :=
  { initialAppState with
      connected := true,
      queues := [schedQueueStats],
      selectedQueueIndex := 0,
      jobs := [⟨"j1", "job", "waiting", 5⟩, ⟨"j2", "job", "waiting", 4⟩],
      selectedJobIndex := 1,
      jobsStatus := .latest }

/-- A healthy broker whose selected queue has become empty. -/
def emptyQueueBroker : Broker :=
  { queueStatsR := .ok [schedQueueStats],
    globalMetricsR := .ok quietMetrics,
    queueData := fun _ => emptyBrokerQueue,
    jobsFail := none,
    schedulersFail := none }

/-- A broker reporting exactly two queues. -/
def twoQueueBroker : Broker :=
  { queueStatsR := .ok [schedQueueStats, { schedQueueStats with name := "q2" }],
    globalMetricsR := .ok quietMetrics,
    queueData := fun _ => emptyBrokerQueue,
    jobsFail := none,
    schedulersFail := none }

/-- A store state whose selected queue index is 2. -/
def indexTwoState : AppState :=
  { initialAppState with connected := true, selectedQueueIndex := 2 }

/-! ## Theorems -/

/-- Rounding a non-negative rational half away from zero stays
non-negative. -/
theorem jsToFixed_nonneg (d : Nat) (x : ℚ) (hx : 0 ≤ x) :
    0 ≤ jsToFixed d x := by
  have hp : (0 : ℚ) < 10 ^ d := by positivity
  have h1 : (0 : ℚ) ≤ x * 10 ^ d + 1 / 2 := by positivity
  rw [jsToFixed]
  simp only [hx, if_true]
  exact div_nonneg (by exact_mod_cast Int.floor_nonneg.mpr h1) hp.le

/-- One `update` step keeps the smoothed accumulators non-negative and
every rate it emits non-negative. -/
theorem update_preserves_nonneg (st : TrackerState) (now : ℚ) (c : JobCounts)
    (hE : 0 ≤ st.smoothedEnqueuedPerMin) (hD : 0 ≤ st.smoothedDequeuedPerMin) :
    0 ≤ (st.update now c).1.smoothedEnqueuedPerMin ∧
      0 ≤ (st.update now c).1.smoothedDequeuedPerMin ∧
      (st.update now c).2.nonneg := by
  unfold TrackerState.update Rates.nonneg
  cases hlt : st.lastPollTime with
  | none => exact ⟨hE, hD, le_rfl, le_rfl, le_rfl, le_rfl⟩
  | some lastT =>
      simp only
      split_ifs with hshort
      · exact ⟨hE, hD, hE, by positivity, hD, by positivity⟩
      · have helapsed : (0 : ℚ) < (now - lastT) / 60000 :=
          lt_of_lt_of_le (by norm_num) (not_lt.mp hshort)
        have hsf0 : (0 : ℚ) ≤ smoothingFactor := by norm_num [smoothingFactor]
        have hsf1 : (0 : ℚ) ≤ 1 - smoothingFactor := by norm_num [smoothingFactor]
        have hiE : 0 ≤ max 0 (c.wait + c.active + c.delayed + c.completed + c.failed
            - st.lastTotalJobs) / ((now - lastT) / 60000) :=
          div_nonneg (le_max_left _ _) helapsed.le
        have hiD : 0 ≤ max 0 (c.completed + c.failed - st.lastProcessedJobs) /
            ((now - lastT) / 60000) :=
          div_nonneg (le_max_left _ _) helapsed.le
        have hE' : 0 ≤ smoothingFactor * (max 0 (c.wait + c.active + c.delayed +
            c.completed + c.failed - st.lastTotalJobs) / ((now - lastT) / 60000)) +
            (1 - smoothingFactor) * st.smoothedEnqueuedPerMin :=
          add_nonneg (mul_nonneg hsf0 hiE) (mul_nonneg hsf1 hE)
        have hD' : 0 ≤ smoothingFactor * (max 0 (c.completed + c.failed -
            st.lastProcessedJobs) / ((now - lastT) / 60000)) +
            (1 - smoothingFactor) * st.smoothedDequeuedPerMin :=
          add_nonneg (mul_nonneg hsf0 hiD) (mul_nonneg hsf1 hD)
        refine ⟨hE', hD', jsToFixed_nonneg _ _ hE', jsToFixed_nonneg _ _ (by positivity),
          jsToFixed_nonneg _ _ hD', jsToFixed_nonneg _ _ (by positivity)⟩

/-- Every rate record emitted along an observation sequence is
non-negative, given non-negative starting accumulators. -/
theorem runUpdates_nonneg (obs : List (ℚ × JobCounts)) :
    ∀ st : TrackerState, 0 ≤ st.smoothedEnqueuedPerMin →
      0 ≤ st.smoothedDequeuedPerMin →
      ∀ r ∈ (runUpdates st obs).2, r.nonneg := by
  induction obs with
  | nil => intro st _ _ r hr; simp [runUpdates] at hr
  | cons p rest ih =>
      intro st hE hD r hr
      obtain ⟨now, c⟩ := p
      simp only [runUpdates, List.mem_cons] at hr
      obtain ⟨h1, h2, h3⟩ := update_preserves_nonneg st now c hE hD
      rcases hr with hr | hr
      · exact hr ▸ h3
      · exact ih (st.update now c).1 h1 h2 r hr

/-- C7: the Rate Tracker emits all-zero rates on the first `update` after
construction, whatever the input counts; and from any prior state,
`reset()` followed by `update` reproduces the first-call behaviour exactly
(the same all-zero rates and the same recorded baseline). -/
theorem tracker_first_call_and_reset_emit_zero (st : TrackerState) (now : ℚ)
    (c : JobCounts) :
    (TrackerState.fresh.update now c).2 = zeroRates ∧
      (st.resetTracker).update now c = TrackerState.fresh.update now c :=
  ⟨rfl, rfl⟩

/-- C8: along any observation sequence with non-decreasing times started
from a fresh tracker, every emitted rate (enqueued and dequeued, per
minute and per second) is non-negative: deltas are clamped at zero and
exponential smoothing of non-negative inputs from a zero accumulator stays
non-negative. -/
theorem tracker_rates_never_negative (obs : List (ℚ × JobCounts))
    (_hmono : List.Chain' (fun p q => p.1 ≤ q.1) obs) :
    ∀ r ∈ (runUpdates TrackerState.fresh obs).2, r.nonneg :=
  runUpdates_nonneg obs TrackerState.fresh le_rfl le_rfl

/-- Witness for C8 at the concrete shrinking-count run. -/
theorem tracker_rates_never_negative_witness :
    List.Chain' (fun p q => p.1 ≤ q.1) shrinkingObs ∧
      ∀ r ∈ (runUpdates TrackerState.fresh shrinkingObs).2, r.nonneg := by
  have hchain : List.Chain' (fun p q : ℚ × JobCounts => p.1 ≤ q.1) shrinkingObs := by
    simp only [shrinkingObs, List.chain'_cons, List.chain'_singleton, and_true]
    norm_num
  exact ⟨hchain, tracker_rates_never_negative shrinkingObs hchain⟩

/-- C9: from a fresh tracker, two updates with processed counts 0 then 10
and all other counts unchanged, exactly 60 s apart, give an instantaneous
dequeue rate of 10/min (delta 10 over one minute), and the emitted
smoothed dequeue rate is `0.3 * 10 + 0.7 * 0 = 3.0` per minute. -/
theorem tracker_sixty_second_dequeue_rate (t0 w a d tot1 tot2 : ℚ) :
    ((TrackerState.fresh.update t0
          { wait := w, active := a, completed := 0, failed := 0, delayed := d,
            total := tot1 }).1.update (t0 + 60000)
        { wait := w, active := a, completed := 10, failed := 0, delayed := d,
          total := tot2 }).1.smoothedDequeuedPerMin
        = smoothingFactor * 10 + (1 - smoothingFactor) * 0 ∧
      ((TrackerState.fresh.update t0
          { wait := w, active := a, completed := 0, failed := 0, delayed := d,
            total := tot1 }).1.update (t0 + 60000)
        { wait := w, active := a, completed := 10, failed := 0, delayed := d,
          total := tot2 }).2.dequeuedPerMin = 3 ∧
      (TrackerState.fresh.update t0
        { wait := w, active := a, completed := 0, failed := 0, delayed := d,
          total := tot1 }).2 = zeroRates := by
  refine ⟨?_, ?_, rfl⟩ <;>
    · simp only [TrackerState.update, TrackerState.fresh]
      norm_num [jsToFixed, smoothingFactor]

/-- `notifyListeners` produces exactly one event per registered listener,
in registration order. -/
theorem notifyListeners_ids (snap : AppState) (ls : List Listener) :
    (notifyListeners snap ls).map (fun e => e.listenerId) =
      ls.map (fun l => l.id) := by
  induction ls with
  | nil => rfl
  | cons l rest ih => simp [notifyListeners, ih]

/-- Every event of a notification round carries the snapshot it was
started with. -/
theorem notifyListeners_observed (snap : AppState) (ls : List Listener) :
    ∀ e ∈ notifyListeners snap ls, e.observed = snap := by
  induction ls with
  | nil => intro e he; simp [notifyListeners] at he
  | cons l rest ih =>
      intro e he
      simp only [notifyListeners, List.mem_cons] at he
      rcases he with he | he
      · rw [he]
      · exact ih e he

/-- C4: `setPartial`/`setState` merges the given fields into the snapshot
and then invokes every currently subscribed listener exactly once,
synchronously, in registration order, with the post-merge snapshot.  The
listener behaviours (`Listener.call`) are arbitrary — in particular any of
them may throw — yet the call never fails, every listener still appears in
the invocation trace exactly once in order, and the resulting snapshot is
the merge: a thrown listener exception is caught, does not suppress the
remaining notifications, and does not propagate to the mutator. -/
theorem setState_notifies_all_in_order (st : StoreState) (p : PartialAppState) :
    (setState st p).1.snapshot = mergeState st.snapshot p ∧
      (setState st p).1.listeners = st.listeners ∧
      ((setState st p).2.map (fun e => e.listenerId) =
        st.listeners.map (fun l => l.id)) ∧
      ∀ e ∈ (setState st p).2, e.observed = mergeState st.snapshot p :=
  ⟨rfl, rfl, notifyListeners_ids _ _, notifyListeners_observed _ _⟩

/-- Window arithmetic shared by the paginator claims: with `page ≥ 1` and
`pageSize ≥ 1`, the inclusive fetch bound `start + pageSize - 1` covers
exactly the first `page * pageSize` elements, and the slice window has
width `pageSize`. -/
theorem page_window (page pageSize : Nat) (hp : 1 ≤ page) (hs : 1 ≤ pageSize) :
    (page - 1) * pageSize + pageSize - 1 + 1 = page * pageSize ∧
      page * pageSize - (page - 1) * pageSize = pageSize := by
  have h1 : page * pageSize = (page - 1) * pageSize + pageSize := by
    calc page * pageSize = ((page - 1) + 1) * pageSize := by rw [Nat.sub_add_cancel hp]
      _ = (page - 1) * pageSize + pageSize := by rw [Nat.succ_mul]
  omega

/-- C2: for every `page ≥ 1` and `pageSize ≥ 1`, the "latest" view of
`getJobs` returns exactly the specification's fetch-prefixes /
sort-descending / slice-window result, and reports the sum of all six
category counts (prioritized included) as the total. -/
theorem getJobs_latest_matches_spec (q : BrokerQueue) (page pageSize : Nat)
    (hp : 1 ≤ page) (hs : 1 ≤ pageSize) :
    (getJobs q .latest page pageSize).jobs = (latestPageSpec q page pageSize).1 ∧
      (getJobs q .latest page pageSize).total = (latestPageSpec q page pageSize).2 := by
  obtain ⟨h1, h2⟩ := page_window page pageSize hp hs
  constructor
  · simp only [getJobs, latestPageSpec, fetchRange, jsSlice, List.drop_zero,
      Nat.sub_zero]
    rw [h1]
  · simp only [getJobs, latestPageSpec]
    omega

/-- Witness for C2 at the specification's example: `page = 1`,
`pageSize = 2` yield the jobs with timestamps `[100, 90]` in that order
and `total = 4`. -/
theorem getJobs_latest_matches_spec_witness :
    1 ≤ 1 ∧ 1 ≤ 2 ∧
      (getJobs latestExampleQueue .latest 1 2).jobs =
        (latestPageSpec latestExampleQueue 1 2).1 ∧
      (getJobs latestExampleQueue .latest 1 2).total =
        (latestPageSpec latestExampleQueue 1 2).2 ∧
      (getJobs latestExampleQueue .latest 1 2).jobs.map
        (fun j => j.timestamp) = [100, 90] ∧
      (getJobs latestExampleQueue .latest 1 2).total = 4 :=
  ⟨Nat.le_refl 1, by decide,
    (getJobs_latest_matches_spec latestExampleQueue 1 2 (Nat.le_refl 1)
      (by decide)).1,
    (getJobs_latest_matches_spec latestExampleQueue 1 2 (Nat.le_refl 1)
      (by decide)).2,
    by decide, by decide⟩

/-- Counterexample to C3 as stated: on `waitExampleQueue` with `page = 1`,
`pageSize = 2` the code returns the jobs in concatenation order
`[10, 100]` (by timestamp), while the claimed sorted merge would return
`[100, 10]`; so the claimed equality fails at this input. -/
theorem getJobs_wait_not_sorted_counterexample :
    (getJobs waitExampleQueue .wait 1 2).jobs.map (fun j => j.timestamp) =
        [10, 100] ∧
      (waitPageSpecSorted waitExampleQueue 1 2).1.map (fun j => j.timestamp) =
        [100, 10] ∧
      ¬ ((getJobs waitExampleQueue .wait 1 2).jobs =
            (waitPageSpecSorted waitExampleQueue 1 2).1 ∧
          (getJobs waitExampleQueue .wait 1 2).total =
            (waitPageSpecSorted waitExampleQueue 1 2).2) := by
  decide

/-- C3 (amended): for every `page ≥ 1` and `pageSize ≥ 1`, the "wait"
filter returns the prefix-merge of waiting followed by prioritized,
sliced to the page window *without* re-sorting, and reports
`waiting + prioritized` as the total. -/
theorem getJobs_wait_matches_unsorted_merge (q : BrokerQueue)
    (page pageSize : Nat) (hp : 1 ≤ page) (hs : 1 ≤ pageSize) :
    (getJobs q .wait page pageSize).jobs = (waitPageSpecUnsorted q page pageSize).1 ∧
      (getJobs q .wait page pageSize).total =
        (waitPageSpecUnsorted q page pageSize).2 := by
  obtain ⟨h1, h2⟩ := page_window page pageSize hp hs
  constructor
  · simp only [getJobs, waitPageSpecUnsorted, fetchRange, jsSlice,
      List.drop_zero, Nat.sub_zero]
    rw [h1]
  · simp only [getJobs, waitPageSpecUnsorted]

/-- Witness for the amended C3 at `waitExampleQueue`, `page = 1`,
`pageSize = 2`. -/
theorem getJobs_wait_matches_unsorted_merge_witness :
    1 ≤ 1 ∧ 1 ≤ 2 ∧
      (getJobs waitExampleQueue .wait 1 2).jobs =
        (waitPageSpecUnsorted waitExampleQueue 1 2).1 ∧
      (getJobs waitExampleQueue .wait 1 2).total =
        (waitPageSpecUnsorted waitExampleQueue 1 2).2 :=
  ⟨Nat.le_refl 1, by decide,
    (getJobs_wait_matches_unsorted_merge waitExampleQueue 1 2 (Nat.le_refl 1)
      (by decide)).1,
    (getJobs_wait_matches_unsorted_merge waitExampleQueue 1 2 (Nat.le_refl 1)
      (by decide)).2⟩

/-- C5: the re-entrancy guard serializes poll bodies.  A `poll()` call
that finds `isPolling` set returns immediately — no fetch, no store write,
no state change; and whenever the body runs (guard clear), it terminates
with the guard released again, for every broker behaviour including any
combination of fetch failures. -/
theorem poll_reentrancy_guard (b : Broker) (g : Bool) (s : AppState) :
    (g = true → poll b g s = { isPolling := g, state := s, effects := [] }) ∧
      (g = false → (poll b g s).isPolling = false) := by
  constructor
  · intro hg; subst hg; rfl
  · intro hg; subst hg
    unfold poll
    simp only [Bool.false_eq_true, if_false]
    repeat first | rfl | split

/-- Witness for C5: a guarded call is the identity outcome, and an
unguarded call releases the guard. -/
theorem poll_reentrancy_guard_witness :
    poll quietBroker true initialAppState =
        { isPolling := true, state := initialAppState, effects := [] } ∧
      (poll quietBroker false initialAppState).isPolling = false :=
  ⟨(poll_reentrancy_guard quietBroker true initialAppState).1 rfl,
    (poll_reentrancy_guard quietBroker false initialAppState).2 rfl⟩

/-- C6: if any remote fetch awaited inside a full poll throws, the poll
ends with `connected = false`, the `error` field holding the failure's
message, and `isLoading = false`; and `resetMetricsTracker()` is invoked
exactly when the store's `connected` flag was `true` when the poll
started. -/
theorem poll_failure_disconnects_and_resets (b : Broker) (s : AppState)
    (msg : String) (hfail : pollFailureMsg b s = some msg) :
    (poll b false s).state.connected = false ∧
      (poll b false s).state.error = some msg ∧
      (poll b false s).state.isLoading = false ∧
      (PollEffect.resetTracker ∈ (poll b false s).effects ↔ s.connected = true) := by
  unfold poll
  simp only [Bool.false_eq_true, if_false]
  cases hq : b.queueStatsR with
  | error e =>
      simp only [pollFailureMsg, hq, Option.some.injEq] at hfail
      subst hfail
      cases hc : s.connected <;>
        simp [pollCatch, mergeState, hc, List.mem_append]
  | ok queues =>
      cases hm : b.globalMetricsR with
      | error e =>
          simp only [pollFailureMsg, hq, hm, Option.some.injEq] at hfail
          subst hfail
          cases hc : s.connected <;>
            simp [pollCatch, mergeState, hc, List.mem_append]
      | ok gm =>
          simp only [pollFailureMsg, hq, hm] at hfail
          simp only [mergeState, Option.getD_none, Option.getD_some]
          rcases hidx : queues[if 0 < queues.length then
              min s.selectedQueueIndex (queues.length - 1) else 0]? with _ | q
          · rw [hidx] at hfail
            simp at hfail
          · rw [hidx] at hfail
            simp only at hfail
            by_cases hst : s.jobsStatus = JobListView.scheduled
            · rw [if_pos hst] at hfail
              cases hc : s.connected <;>
                simp [pollCatch, mergeState, hst, hfail, hc, List.mem_append]
            · rw [if_neg hst] at hfail
              cases hc : s.connected <;>
                simp [pollCatch, mergeState, hst, hfail, hc, List.mem_append]

/-- Witness for C6: on a connected store, a rejecting queue-summary fetch
flips `connected` off, records the message, clears `isLoading`, and
resets the tracker. -/
theorem poll_failure_disconnects_and_resets_witness :
    pollFailureMsg refusingBroker connectedState = some "ECONNREFUSED" ∧
      ((poll refusingBroker false connectedState).state.connected = false ∧
        (poll refusingBroker false connectedState).state.error =
          some "ECONNREFUSED" ∧
        (poll refusingBroker false connectedState).state.isLoading = false ∧
        (PollEffect.resetTracker ∈ (poll refusingBroker false connectedState).effects ↔
          connectedState.connected = true)) :=
  ⟨rfl, poll_failure_disconnects_and_resets refusingBroker connectedState
    "ECONNREFUSED" rfl⟩

/-- C1 (code bug): key `"7"` sets the filter value `schedulers`, but
`poll` compares the re-read filter against the distinct value `scheduled`
— a value no key handler ever stores — so on a full poll with the
schedulers view active and a healthy broker that does have a scheduler
page to show, `poll` never issues the scheduler fetch: it takes the job
branch, whose `getJobs` call falls through the `switch` to the empty
default, writes an empty job page, and clears the scheduler page instead
of populating it. -/
theorem poll_schedulers_filter_leaves_page_empty :
    getStatusFromKey "7" = some JobListView.schedulers ∧
      (getJobSchedulers schedQueue 1).schedulers ≠ [] ∧
      (poll schedBroker false schedulersFilterState).state.schedulers = [] ∧
      (poll schedBroker false schedulersFilterState).state.schedulersTotal = 0 ∧
      (poll schedBroker false schedulersFilterState).state.jobs = [] ∧
      (poll schedBroker false schedulersFilterState).state.jobsTotal = 0 ∧
      PollEffect.fetchSchedulers "q1" 1 ∉
        (poll schedBroker false schedulersFilterState).effects ∧
      PollEffect.fetchJobs "q1" JobListView.schedulers 1 ∈
        (poll schedBroker false schedulersFilterState).effects := by
  decide

/-- The clamped queue index a successful poll writes always satisfies the
invariant against the freshly written queue list. -/
theorem idxInv_clamp (idx len : Nat) :
    idxInv (if 0 < len then min idx (len - 1) else 0) len := by
  unfold idxInv; split_ifs with h <;> omega

/-- Every navigation/pagination intent preserves the invariant. -/
theorem applyIntent_preserves_stateInv (i : Intent) (s : AppState)
    (h : stateInv s) : stateInv (applyIntent i s) := by
  unfold stateInv idxInv at h
  cases i <;>
    simp only [applyIntent, selectNextQueue, selectPrevQueue, selectNextJob,
      selectPrevJob, selectNextScheduler, selectPrevScheduler, nextPage,
      prevPage, goToPage, nextSchedulerPage, prevSchedulerPage,
      goToSchedulerPage, setJobsStatus, mergeState, Option.getD_none,
      Option.getD_some] <;>
    (try split_ifs) <;>
    (unfold stateInv idxInv; (try dsimp only); omega)

/-- A full poll preserves the queue-index invariant (and on failure paths
leaves both the queue list and the index untouched). -/
theorem poll_preserves_queue_idxInv (b : Broker) (s : AppState)
    (h : idxInv s.selectedQueueIndex s.queues.length) :
    idxInv (poll b false s).state.selectedQueueIndex
      (poll b false s).state.queues.length := by
  unfold poll
  simp only [Bool.false_eq_true, if_false]
  cases hq : b.queueStatsR with
  | error e => simpa [pollCatch, mergeState] using h
  | ok queues =>
      cases hm : b.globalMetricsR with
      | error e => simpa [pollCatch, mergeState] using h
      | ok gm =>
          simp only [mergeState, Option.getD_none, Option.getD_some]
          rcases hidx : queues[if 0 < queues.length then
              min s.selectedQueueIndex (queues.length - 1) else 0]? with _ | q
          · dsimp only
            exact idxInv_clamp _ _
          · dsimp only
            by_cases hst : s.jobsStatus = JobListView.scheduled
            · rw [if_pos hst]
              cases hsf : b.schedulersFail with
              | some e =>
                  simp only [pollCatch, mergeState, Option.getD_none,
                    Option.getD_some]
                  exact idxInv_clamp _ _
              | none =>
                  simp only
                  exact idxInv_clamp _ _
            · rw [if_neg hst]
              cases hjf : b.jobsFail with
              | some e =>
                  simp only [pollCatch, mergeState, Option.getD_none,
                    Option.getD_some]
                  exact idxInv_clamp _ _
              | none =>
                  simp only
                  exact idxInv_clamp _ _

/-- Whenever both global fetches succeed, the poll writes exactly the
clamped queue index `min(old, count - 1)` (or `0` with no queues),
whatever happens afterwards. -/
theorem poll_clamps_queue_index (b : Broker) (s : AppState)
    (queues : List QueueStats) (gm : GlobalMetrics)
    (hq : b.queueStatsR = .ok queues) (hm : b.globalMetricsR = .ok gm) :
    (poll b false s).state.selectedQueueIndex =
      if 0 < queues.length then min s.selectedQueueIndex (queues.length - 1)
      else 0 := by
  unfold poll
  simp only [Bool.false_eq_true, if_false, hq, hm]
  simp only [mergeState, Option.getD_none, Option.getD_some]
  rcases hidx : queues[if 0 < queues.length then
      min s.selectedQueueIndex (queues.length - 1) else 0]? with _ | q
  · dsimp only
  · dsimp only
    by_cases hst : s.jobsStatus = JobListView.scheduled
    · rw [if_pos hst]
      cases hsf : b.schedulersFail with
      | some e =>
          simp only [pollCatch, mergeState, Option.getD_none, Option.getD_some]
      | none => rfl
    · rw [if_neg hst]
      cases hjf : b.jobsFail with
      | some e =>
          simp only [pollCatch, mergeState, Option.getD_none, Option.getD_some]
      | none => rfl

/-- Counterexample to C10 as stated: a full poll replaces the job page
(here it shrinks to empty) but leaves `selectedJobIndex` untouched, so
the invariant that held before the poll is violated after it. -/
theorem poll_breaks_job_index_invariant_counterexample :
    stateInv twoJobsState ∧
      ¬ stateInv (poll emptyQueueBroker false twoJobsState).state := by
  decide

/-- C10 (amended): every navigation/pagination intent preserves the
selected-index invariant; a full poll preserves the queue-index part of
it; and on every poll whose two global fetches succeed the written queue
index is exactly the clamp `min(old, count-1)` (or 0 with no queues) — in
particular a selected index 2 with only 2 queues becomes 1.  Full polls
and partial refreshes do not re-clamp `selectedJobIndex` or
`selectedSchedulerIndex` against the freshly written lists. -/
theorem selected_index_invariant_amended :
    (∀ (i : Intent) (s : AppState), stateInv s → stateInv (applyIntent i s)) ∧
      (∀ (b : Broker) (s : AppState),
        idxInv s.selectedQueueIndex s.queues.length →
          idxInv (poll b false s).state.selectedQueueIndex
            (poll b false s).state.queues.length) ∧
      (∀ (b : Broker) (s : AppState) (queues : List QueueStats)
          (gm : GlobalMetrics),
        b.queueStatsR = .ok queues → b.globalMetricsR = .ok gm →
          (poll b false s).state.selectedQueueIndex =
            if 0 < queues.length then
              min s.selectedQueueIndex (queues.length - 1)
            else 0) :=
  ⟨applyIntent_preserves_stateInv, poll_preserves_queue_idxInv,
    poll_clamps_queue_index⟩

/-- Witness for the amended C10: a concrete intent keeps the invariant, a
concrete poll keeps the queue-index invariant, and a poll that reports
two queues clamps selected index 2 down to 1. -/
theorem selected_index_invariant_amended_witness :
    stateInv (applyIntent (Intent.pageGoTo 3) initialAppState) ∧
      idxInv (poll twoQueueBroker false initialAppState).state.selectedQueueIndex
        (poll twoQueueBroker false initialAppState).state.queues.length ∧
      (poll twoQueueBroker false indexTwoState).state.selectedQueueIndex = 1 := by
  refine ⟨selected_index_invariant_amended.1 (Intent.pageGoTo 3) initialAppState
      (by decide),
    selected_index_invariant_amended.2.1 twoQueueBroker initialAppState
      (by decide), ?_⟩
  have h := selected_index_invariant_amended.2.2 twoQueueBroker indexTwoState
    [schedQueueStats, { schedQueueStats with name := "q2" }] quietMetrics rfl rfl
  rw [h]
  decide
